import Mathlib

/-!
Verification of the reel_maker tool-calling orchestration core.

The JavaScript source is shallowly embedded: JavaScript dynamic values that
flow through the dispatcher are modelled by `JsonVal`; the external network
calls (the Gemini round trip, the thumbnail generator) are modelled as
explicit parameters describing their outcome, while all local control flow
(guards, truthiness checks, string building, list mutation) is translated
directly from the source of `services/gemini.js` (the translation contract),
the chat service (`sendAssistantMessage`, `buildScriptContext`,
`tryParseScriptFromText`) and the host component (`initialScene`,
`handleChatTranslateNarrations`).
-/

/-- A JSON-like JavaScript value, used for dynamic tool-call arguments and
for the parsed remote responses. -/
inductive JsonVal where
  | str (s : String)
  | num (n : Int)
  | bool (b : Bool)
  | null
  | arr (elems : List JsonVal)
  | obj (fields : List (String × JsonVal))

/-- JavaScript truthiness of a value. -/
def jsTruthyVal : JsonVal → Bool
  | JsonVal.str s => s ≠ ""
  | JsonVal.num n => n ≠ 0
  | JsonVal.bool b => b
  | JsonVal.null => false
  | JsonVal.arr _ => true
  | JsonVal.obj _ => true

/-- Truthiness of a possibly-absent (undefined) value. -/
def jsTruthyOpt : Option JsonVal → Bool
  | none => false
  | some v => jsTruthyVal v

mutual

/-- JavaScript `String(v)` coercion (arrays join with commas, objects print
as `[object Object]`). -/
def jsToString : JsonVal → String
  | JsonVal.str s => s
  | JsonVal.num n => toString n
  | JsonVal.bool b => if b then "true" else "false"
  | JsonVal.null => "null"
  | JsonVal.obj _ => "[object Object]"
  | JsonVal.arr xs => String.intercalate (",") (jsArrElems xs)

/-- Element strings for `Array.prototype.toString`: `null` elements render
as the empty string inside a joined array. -/
def jsArrElems : List JsonVal → List String
  | [] => []
  | JsonVal.null :: rest => "" :: jsArrElems rest
  | v :: rest => jsToString v :: jsArrElems rest

end

/-- Property lookup on a value: `v[k]`, `undefined` (`none`) when the value
is not an object or lacks the key. -/
def getField : JsonVal → String → Option JsonVal
  | JsonVal.obj kvs, k => (kvs.find? (fun p => p.1 = k)).map (fun p => p.2)
  | _, _ => none

/-- JavaScript `a || b` on strings (first operand when truthy, i.e. nonempty). -/
def jsOr (a b : String) : String := if a = "" then b else a

/-- Strip leading and trailing whitespace from a character list. -/
def trimChars (cs : List Char) : List Char :=
  ((cs.dropWhile Char.isWhitespace).reverse.dropWhile Char.isWhitespace).reverse

/-- JavaScript `s.trim()` (an executable model of `String.trim`). -/
def jsTrim (s : String) : String := String.mk (trimChars s.data)

/-- One scene of the script as held by the host application.  Blobs are
opaque handles.  `narrationTranslated` is `none` when the property is
absent (never set), `some t` when it holds string `t`. -/
structure Scene where
  sceneNumber : Int
  description : String
  narration : String
  narrationTranslated : Option String
  imageBlob : Option Nat
  audioBlob : Option Nat
deriving DecidableEq

/-!  ## TranslationContract: `translateNarrationsBatch` (services/gemini.js)  -/

/-- Outcome of the remote translation round trip, after the code has
trimmed the candidate text and stripped code fences: the response either
had no text, had text `JSON.parse` rejects, or parsed to a value. -/
inductive RemoteText where
  | noText
  | unparseable
  | parsed (v : JsonVal)

/-- The errors `translateNarrationsBatch` can throw. -/
inductive TranslationError where
  | apiKeyMissing
  | noResponse
  | invalidJson
  | lengthMismatch (got : Nat) (expected : Nat)
deriving DecidableEq

/-- `Array.isArray(parsed) ? parsed : [parsed]`. -/
def jsWrapArr : JsonVal → List JsonVal
  | JsonVal.arr xs => xs
  | v => [v]

/-- The per-item coercion `typeof s === 'string' ? s : String(s ?? '')`. -/
def coerceElem : JsonVal → String
  | JsonVal.str s => s
  | JsonVal.null => ""
  | v => jsToString v

/-- `translateNarrationsBatch(narrations, targetLanguageLabel)` from
services/gemini.js.  `apiConfigured` models the `ai` handle being non-null
and `remote` the outcome of the external call. -/
def translateNarrationsBatch (apiConfigured : Bool) (narrations : List String)
    (targetLanguageLabel : String) (remote : RemoteText) :
    Except TranslationError (List String) :=
  if ¬ apiConfigured then Except.error TranslationError.apiKeyMissing
  else if narrations.length = 0 then Except.ok []
  else
    match remote with
    | RemoteText.noText => Except.error TranslationError.noResponse
    | RemoteText.unparseable => Except.error TranslationError.invalidJson
    | RemoteText.parsed v =>
      let arr := jsWrapArr v
      if arr.length ≠ narrations.length then
        Except.error (TranslationError.lengthMismatch arr.length narrations.length)
      else Except.ok (arr.map coerceElem)

/-!  ## ContextBuilder: `buildScriptContext` (chat service)  -/

/-- Truthiness of the optional `narrationTranslated` property: present and
nonempty. -/
def jsTruthyStr : Option String → Bool
  | none => false
  | some s => s ≠ ""

/-- The scene block before the conditional translated-narration line:
`Scene n:\n  Description: ...\n  Narration (original): ...`. -/
def sceneBaseBlock (s : Scene) : String :=
  "Scene " ++ toString s.sceneNumber ++ ":\n  Description: "
    ++ jsOr s.description ("(none)")
    ++ "\n  Narration (original): " ++ jsOr s.narration ("(none)")

/-- One scene block of the injected context, with the translated line
appended only when `s.narrationTranslated` is truthy. -/
def sceneContextBlock (s : Scene) : String :=
  if jsTruthyStr s.narrationTranslated then
    sceneBaseBlock s ++ "\n  Narration (translated): "
      ++ s.narrationTranslated.getD ""
  else sceneBaseBlock s

/-- `buildScriptContext(scenes)` from the chat service: empty string for an
empty list, otherwise the labelled blocks joined by blank lines. -/
def buildScriptContext (scenes : List Scene) : String :=
  if scenes.length = 0 then ""
  else "CURRENT SCRIPT:\n\n"
    ++ String.intercalate ("\n\n") (scenes.map sceneContextBlock)

example : buildScriptContext [] = "" := rfl

example :
    translateNarrationsBatch true ["a", "b"] ("French")
      (RemoteText.parsed (JsonVal.arr [JsonVal.str "x"]))
      = Except.error (TranslationError.lengthMismatch 1 2) := rfl

/-!  ## ToolCallDispatcher: `sendAssistantMessage` (chat service)  -/

/-- The item shape used for elements of a `scenes` array argument, both for
`generateMovieScript` items and for the sparse translation form
`{ sceneNumber, narration }`; each property may be absent. -/
structure SceneItem where
  sceneNumber : Option Int := none
  description : Option String := none
  narration : Option String := none
  narrationTranslated : Option String := none
deriving DecidableEq

/-- The value of a `scenes` argument: an array of items, or some non-array
value (whose only observable trait in the dispatcher is truthiness). -/
inductive ScenesVal where
  | arr (items : List SceneItem)
  | nonArray (truthy : Bool)
deriving DecidableEq

/-- The value of a `translatedNarrations` argument: an array of strings or
some non-array value (only ever tested with `Array.isArray`). -/
inductive TransNarr where
  | arr (items : List String)
  | nonArray
deriving DecidableEq

/-- The argument object of one tool call (`fc.args`); every key may be
absent. -/
structure ToolArgs where
  scenes : Option ScenesVal := none
  targetLanguage : Option JsonVal := none
  translatedNarrations : Option TransNarr := none
  title : Option JsonVal := none
  description : Option JsonVal := none
  prompt : Option String := none
  modelTier : Option JsonVal := none
  imageModel : Option JsonVal := none

/-- One structured function call of a response (`fc`); `fc?.name` may be
absent. -/
structure FnCall where
  name : Option String := none
  args : ToolArgs := {}

/-- Truthiness of a `scenes` argument (`args.scenes` guard of the
`generateMovieScript` branch). -/
def scenesTruthy : Option ScenesVal → Bool
  | none => false
  | some (ScenesVal.arr _) => true
  | some (ScenesVal.nonArray t) => t

/-- `Array.isArray(args.scenes)`. -/
def isArrayScenes : Option ScenesVal → Bool
  | some (ScenesVal.arr _) => true
  | _ => false

/-- `Array.isArray(args.translatedNarrations)`. -/
def isArrayTN : Option TransNarr → Bool
  | some (TransNarr.arr _) => true
  | _ => false

/-- One host-visible effect delivered through the dispatcher's callbacks. -/
inductive Effect where
  | script (args : ToolArgs)
  | translate (args : ToolArgs)
  | title (v : JsonVal)
  | description (v : JsonVal)
  | thumbnail (blob : Nat)
  | scriptFallback (scenes : List JsonVal)

/-- The object `{ targetLanguage: args.targetLanguage, translatedNarrations:
args.translatedNarrations }` passed to `onTranslateNarrations` in the flat
branch. -/
def flatTranslateArgs (args : ToolArgs) : ToolArgs :=
  { targetLanguage := args.targetLanguage
    translatedNarrations := args.translatedNarrations }

/-- Outcome oracle for `generateYouTubeThumbnail(prompt, sceneBlobs,
modelId)`: the external call either yields a blob or throws an error whose
message is the given string. -/
def ThumbOracle : Type := String → String → List Nat → Except String Nat

/-- `a || b` where `a` is a possibly-absent dynamic value. -/
def jsOrVal (a : Option JsonVal) (b : JsonVal) : JsonVal :=
  match a with
  | some v => if jsTruthyVal v then v else b
  | none => b

/-- JavaScript strict equality of a dynamic value with the string literal
`'expensive'`. -/
def isExpensiveTier : JsonVal → Bool
  | JsonVal.str s => s = "expensive"
  | _ => false

/-- The thumbnail handler body up to the external call: tier and model
selection, prompt fallback to the script summary, and the scene blobs. -/
def thumbnailInvoke (thumb : ThumbOracle) (scenes : List Scene)
    (args : ToolArgs) : Except String Nat :=
  let tier := jsOrVal args.modelTier (jsOrVal args.imageModel (JsonVal.str "cheap"))
  let modelId :=
    if isExpensiveTier tier then "gemini-3-pro-image-preview"
    else "gemini-2.5-flash-image"
  let scriptSummary := jsOr (buildScriptContext scenes) ("Short video reel.")
  let prompt :=
    match args.prompt with
    | some p => if jsTrim p ≠ "" then jsTrim p else scriptSummary
    | none => scriptSummary
  let sceneBlobs := (scenes.map (fun s => s.imageBlob)).filterMap id
  thumb prompt modelId sceneBlobs

/-- Canned confirmation for `generateMovieScript`. -/
def scriptAddedConfirm : String :=
  "I've added the script to your scene editor. You can review and edit it there, then generate images and audio for each scene."

/-- Canned confirmation for `translateNarrations` (interpolates the raw
`targetLanguage` value). -/
def translateConfirm (lang : Option JsonVal) : String :=
  "I've translated the narrations to " ++ jsToString (lang.getD JsonVal.null)
    ++ ". The narration boxes are updated."

/-- Canned confirmation for `generateYouTubeTitle`. -/
def titleConfirm : String :=
  "I've generated a YouTube title. Check the YouTube metadata section."

/-- Canned confirmation for `generateYouTubeDescription`. -/
def descriptionConfirm : String :=
  "I've generated a YouTube description. Check the YouTube metadata section."

/-- Canned confirmation for a successful `generateYouTubeThumbnail`. -/
def thumbnailOkConfirm : String :=
  "Thumbnail generated and displayed in the YouTube metadata section."

/-- The caught-failure sentence of the thumbnail handler
(`err?.message || 'Unknown error'`). -/
def thumbnailFailConfirm (e : String) : String :=
  "Thumbnail generation failed: " ++ jsOr e ("Unknown error") ++ "."

/-- Dispatcher state threaded through the `for (const fc of functionCalls)`
loop: the effects delivered so far and the `confirmText` accumulator. -/
structure DispatchState where
  effects : List Effect
  confirmText : String

/-- The body of the dispatch loop for one call `fc`, translated branch by
branch from `sendAssistantMessage`. -/
def processCall (thumb : ThumbOracle) (scenes : List Scene)
    (st : DispatchState) (fc : FnCall) : DispatchState :=
  if fc.name = some ("generateMovieScript") ∧ scenesTruthy fc.args.scenes then
    { effects := st.effects ++ [Effect.script fc.args]
      confirmText := jsOr st.confirmText scriptAddedConfirm }
  else if fc.name = some ("translateNarrations") ∧ jsTruthyOpt fc.args.targetLanguage then
    { effects := st.effects ++
        (if isArrayTN fc.args.translatedNarrations then
          [Effect.translate (flatTranslateArgs fc.args)]
        else if isArrayScenes fc.args.scenes then [Effect.translate fc.args]
        else [])
      confirmText := jsOr st.confirmText (translateConfirm fc.args.targetLanguage) }
  else if fc.name = some ("generateYouTubeTitle") ∧ jsTruthyOpt fc.args.title then
    { effects := st.effects ++ [Effect.title (fc.args.title.getD JsonVal.null)]
      confirmText := jsOr st.confirmText titleConfirm }
  else if fc.name = some ("generateYouTubeDescription") ∧ jsTruthyOpt fc.args.description then
    { effects := st.effects ++ [Effect.description (fc.args.description.getD JsonVal.null)]
      confirmText := jsOr st.confirmText descriptionConfirm }
  else if fc.name = some ("generateYouTubeThumbnail") then
    match thumbnailInvoke thumb scenes fc.args with
    | Except.ok blob =>
      { effects := st.effects ++ [Effect.thumbnail blob]
        confirmText := jsOr st.confirmText thumbnailOkConfirm }
    | Except.error e =>
      { effects := st.effects
        confirmText := jsOr st.confirmText (thumbnailFailConfirm e) }
  else st

/-- Run the dispatch loop from a given state. -/
def dispatchFrom (thumb : ThumbOracle) (scenes : List Scene)
    (st : DispatchState) (fcs : List FnCall) : DispatchState :=
  fcs.foldl (processCall thumb scenes) st

/-- The whole dispatch pass over one response's function calls, starting
with no effects and `confirmText = ''`. -/
def dispatchCalls (thumb : ThumbOracle) (scenes : List Scene)
    (fcs : List FnCall) : DispatchState :=
  dispatchFrom thumb scenes { effects := [], confirmText := "" } fcs

/-- A call the dispatch loop skips without any action: unknown (or absent)
tag, or a known tag whose required-argument guard fails. -/
def skippedCall (fc : FnCall) : Bool :=
  match fc.name with
  | some n =>
    if n = "generateMovieScript" then ! scenesTruthy fc.args.scenes
    else if n = "translateNarrations" then ! jsTruthyOpt fc.args.targetLanguage
    else if n = "generateYouTubeTitle" then ! jsTruthyOpt fc.args.title
    else if n = "generateYouTubeDescription" then ! jsTruthyOpt fc.args.description
    else if n = "generateYouTubeThumbnail" then false
    else true
  | none => true

/-!  ## FallbackExtractor: `tryParseScriptFromText` (chat service)  -/

/-- Outcome of the regex-and-`JSON.parse` stage of the fallback extractor
on the fence-stripped text: no bracketed region matched, the matched region
was not valid JSON, or it parsed to a value. -/
inductive ParseOutcome where
  | noMatch
  | parseError
  | parsed (v : JsonVal)

/-- The element filter `s && (s.description || s.narration)`. -/
def sceneMeaningful (s : JsonVal) : Bool :=
  jsTruthyVal s &&
    (jsTruthyOpt (getField s ("description")) || jsTruthyOpt (getField s ("narration")))

/-- `tryParseScriptFromText(text)` from the chat service; `po` abstracts
only the regex match and `JSON.parse` call on the cleaned text. -/
def tryParseScriptFromText (text : String) (po : ParseOutcome) :
    Option (List JsonVal) :=
  if jsTrim text = "" then none
  else
    match po with
    | ParseOutcome.noMatch => none
    | ParseOutcome.parseError => none
    | ParseOutcome.parsed v =>
      if ((jsWrapArr v).filter sceneMeaningful).length = 0 then none
      else some ((jsWrapArr v).filter sceneMeaningful)

/-- The short text returned (as `result.text`) by the fallback branch. -/
def scriptAddedShort : String := "I've added the script to your scene editor."

/-- Everything observable from one turn of `sendAssistantMessage` after the
model round trip: the delivered effects, the `onChunk` invocations, and the
returned `{ text, functionCalled }`. -/
structure TurnOutput where
  effects : List Effect
  chunks : List String
  text : String
  functionCalled : Bool

/-- The response-processing tail of `sendAssistantMessage`: dispatch the
structured calls when there are any; otherwise attempt the fallback
extractor on the free text; otherwise echo the free text. -/
def sendAssistantMessagePost (thumb : ThumbOracle) (scenes : List Scene)
    (functionCalls : List FnCall) (text : String) (po : ParseOutcome) :
    TurnOutput :=
  if 0 < functionCalls.length then
    let st := dispatchCalls thumb scenes functionCalls
    { effects := st.effects, chunks := [st.confirmText]
      text := st.confirmText, functionCalled := true }
  else
    match tryParseScriptFromText text po with
    | some scenesArr =>
      { effects := [Effect.scriptFallback scenesArr]
        chunks := [scriptAddedConfirm]
        text := scriptAddedShort, functionCalled := true }
    | none =>
      { effects := [], chunks := [text], text := text, functionCalled := false }

/-!  ## Host application (App component): scene normalization and the chat
translation handler  -/

/-- `initialScene(item)` from the App component: normalizes one dynamic
scene item into a full `Scene`, defaulting every missing field
(`?? 0` / `?? ''`) and leaving blobs unset. -/
def initialScene (item : SceneItem) : Scene :=
  { sceneNumber := item.sceneNumber.getD 0
    description := item.description.getD ""
    narration := item.narration.getD ""
    narrationTranslated := some (item.narrationTranslated.getD "")
    imageBlob := none
    audioBlob := none }

/-- The flat-array branch `prev.map((s, i) => ({ ...s, narrationTranslated:
args.translatedNarrations[i] ?? '' }))`, with `i` the running index. -/
def flatApply (xs : List String) : List Scene → Nat → List Scene
  | [], _ => []
  | s :: rest, i =>
    { s with narrationTranslated := some (xs.getD i ("")) } :: flatApply xs rest (i + 1)

/-- The sparse-branch initialisation `prev.map(s => ({ ...s,
narrationTranslated: '' }))`. -/
def resetTranslated (prev : List Scene) : List Scene :=
  prev.map (fun s => { s with narrationTranslated := some "" })

/-- In-place update of one list position (`next[idx] = ...`); out-of-range
indices leave the list unchanged. -/
def modifyAt : List Scene → Nat → (Scene → Scene) → List Scene
  | [], _, _ => []
  | x :: xs, 0, f => f x :: xs
  | x :: xs, n + 1, f => x :: modifyAt xs n f

/-- The sparse-branch loop `for (const s of args.scenes) { const idx =
(s.sceneNumber || 0) - 1; if (idx >= 0 && idx < next.length) next[idx] =
{ ...next[idx], narrationTranslated: s.narration ?? '' }; }`. -/
def applySparseEntries : List SceneItem → List Scene → List Scene
  | [], next => next
  | e :: rest, next =>
    applySparseEntries rest
      (if 0 ≤ e.sceneNumber.getD 0 - 1
          ∧ e.sceneNumber.getD 0 - 1 < (next.length : Int) then
        modifyAt next (e.sceneNumber.getD 0 - 1).toNat
          (fun s => { s with narrationTranslated := some (e.narration.getD ("")) })
      else next)

/-- `Array.isArray(args.translatedNarrations) && args.translatedNarrations.length`. -/
def isNonemptyTN : Option TransNarr → Bool
  | some (TransNarr.arr xs) => xs.length ≠ 0
  | _ => false

/-- The string elements of a flat `translatedNarrations` array argument. -/
def tnItems : Option TransNarr → List String
  | some (TransNarr.arr xs) => xs
  | _ => []

/-- `Array.isArray(args.scenes) && args.scenes.length`. -/
def isNonemptySceneArr : Option ScenesVal → Bool
  | some (ScenesVal.arr items) => items.length ≠ 0
  | _ => false

/-- The items of a `scenes` array argument. -/
def sceneItems : Option ScenesVal → List SceneItem
  | some (ScenesVal.arr items) => items
  | _ => []

/-- `handleChatTranslateNarrations(args)` from the App component, as a
transformer of the scene list; the `Bool` records whether
`setShowTranslated(true)` was reached. -/
def handleChatTranslateNarrations (args : ToolArgs) (prev : List Scene) :
    List Scene × Bool :=
  if isNonemptyTN args.translatedNarrations then
    (flatApply (tnItems args.translatedNarrations) prev 0, true)
  else if isNonemptySceneArr args.scenes then
    (applySparseEntries (sceneItems args.scenes) (resetTranslated prev), true)
  else (prev, false)

/-!  ## Dispatcher lemmas  -/

/-- `a || ''` is `a`. -/
theorem jsOr_empty_right (a : String) : jsOr a ("") = a := by
  unfold jsOr; split <;> simp_all

/-- `'' || b` is `b`. -/
theorem jsOr_empty_left (b : String) : jsOr ("") b = b := rfl

/-- A truthy left operand wins. -/
theorem jsOr_of_ne (a b : String) (h : a ≠ "") : jsOr a b = a := by
  unfold jsOr; simp [h]

/-- The effects one call contributes, independent of the loop state. -/
def callEffects (thumb : ThumbOracle) (scenes : List Scene) (fc : FnCall) :
    List Effect :=
  if fc.name = some ("generateMovieScript") ∧ scenesTruthy fc.args.scenes then
    [Effect.script fc.args]
  else if fc.name = some ("translateNarrations") ∧ jsTruthyOpt fc.args.targetLanguage then
    (if isArrayTN fc.args.translatedNarrations then
      [Effect.translate (flatTranslateArgs fc.args)]
    else if isArrayScenes fc.args.scenes then [Effect.translate fc.args]
    else [])
  else if fc.name = some ("generateYouTubeTitle") ∧ jsTruthyOpt fc.args.title then
    [Effect.title (fc.args.title.getD JsonVal.null)]
  else if fc.name = some ("generateYouTubeDescription") ∧ jsTruthyOpt fc.args.description then
    [Effect.description (fc.args.description.getD JsonVal.null)]
  else if fc.name = some ("generateYouTubeThumbnail") then
    match thumbnailInvoke thumb scenes fc.args with
    | Except.ok blob => [Effect.thumbnail blob]
    | Except.error _ => []
  else []

/-- The canned sentence one call offers to the `confirmText` accumulator
(empty for a skipped call). -/
def callSentence (thumb : ThumbOracle) (scenes : List Scene) (fc : FnCall) :
    String :=
  if fc.name = some ("generateMovieScript") ∧ scenesTruthy fc.args.scenes then
    scriptAddedConfirm
  else if fc.name = some ("translateNarrations") ∧ jsTruthyOpt fc.args.targetLanguage then
    translateConfirm fc.args.targetLanguage
  else if fc.name = some ("generateYouTubeTitle") ∧ jsTruthyOpt fc.args.title then
    titleConfirm
  else if fc.name = some ("generateYouTubeDescription") ∧ jsTruthyOpt fc.args.description then
    descriptionConfirm
  else if fc.name = some ("generateYouTubeThumbnail") then
    match thumbnailInvoke thumb scenes fc.args with
    | Except.ok _ => thumbnailOkConfirm
    | Except.error e => thumbnailFailConfirm e
  else ""

/-- Normal form of the loop body: each call appends its own effects and
offers its sentence through `confirmText || sentence`. -/
theorem processCall_eq (thumb : ThumbOracle) (scenes : List Scene)
    (st : DispatchState) (fc : FnCall) :
    processCall thumb scenes st fc =
      { effects := st.effects ++ callEffects thumb scenes fc
        confirmText := jsOr st.confirmText (callSentence thumb scenes fc) } := by
  unfold processCall callEffects callSentence
  repeat' split
  all_goals simp [jsOr_empty_right]

/-- The effects contributed by a whole batch, in call order. -/
def batchEffects (thumb : ThumbOracle) (scenes : List Scene)
    (fcs : List FnCall) : List Effect :=
  (fcs.map (callEffects thumb scenes)).flatten

/-- The `confirmText` accumulator over a whole batch. -/
def batchConfirm (thumb : ThumbOracle) (scenes : List Scene)
    (init : String) (fcs : List FnCall) : String :=
  fcs.foldl (fun c fc => jsOr c (callSentence thumb scenes fc)) init

/-- Normal form of the whole dispatch loop. -/
theorem dispatchFrom_eq (thumb : ThumbOracle) (scenes : List Scene)
    (st : DispatchState) (fcs : List FnCall) :
    dispatchFrom thumb scenes st fcs =
      { effects := st.effects ++ batchEffects thumb scenes fcs
        confirmText := batchConfirm thumb scenes st.confirmText fcs } := by
  induction fcs generalizing st with
  | nil => simp [dispatchFrom, batchEffects, batchConfirm]
  | cons fc rest ih =>
    have hstep : dispatchFrom thumb scenes st (fc :: rest)
        = dispatchFrom thumb scenes (processCall thumb scenes st fc) rest := rfl
    rw [hstep, ih, processCall_eq]
    simp [batchEffects, batchConfirm]

/-- Batch effects split over concatenation. -/
theorem batchEffects_append (thumb : ThumbOracle) (scenes : List Scene)
    (l₁ l₂ : List FnCall) :
    batchEffects thumb scenes (l₁ ++ l₂)
      = batchEffects thumb scenes l₁ ++ batchEffects thumb scenes l₂ := by
  simp [batchEffects]

/-- Batch confirmation text splits over concatenation. -/
theorem batchConfirm_append (thumb : ThumbOracle) (scenes : List Scene)
    (init : String) (l₁ l₂ : List FnCall) :
    batchConfirm thumb scenes init (l₁ ++ l₂)
      = batchConfirm thumb scenes (batchConfirm thumb scenes init l₁) l₂ := by
  simp [batchConfirm]

/-- A skipped call contributes no effect and no sentence. -/
theorem skippedCall_noop (thumb : ThumbOracle) (scenes : List Scene)
    (fc : FnCall) (h : skippedCall fc = true) :
    callEffects thumb scenes fc = [] ∧ callSentence thumb scenes fc = "" := by
  unfold skippedCall at h
  unfold callEffects callSentence
  cases hn : fc.name with
  | none => simp [hn]
  | some n =>
    rw [hn] at h
    by_cases h1 : n = "generateMovieScript"
    · simp [h1] at h; simp [hn, h1, h]
    · by_cases h2 : n = "translateNarrations"
      · simp [h1, h2] at h; simp [hn, h1, h2, h]
      · by_cases h3 : n = "generateYouTubeTitle"
        · simp [h1, h2, h3] at h; simp [hn, h1, h2, h3, h]
        · by_cases h4 : n = "generateYouTubeDescription"
          · simp [h1, h2, h3, h4] at h; simp [hn, h1, h2, h3, h4, h]
          · by_cases h5 : n = "generateYouTubeThumbnail"
            · simp [h1, h2, h3, h4, h5] at h
            · simp [hn, h1, h2, h3, h4, h5]

/-- A thumbnail call whose external call throws contributes no effect and
offers exactly the caught-failure sentence. -/
theorem thumbFail_call (thumb : ThumbOracle) (scenes : List Scene)
    (fc : FnCall) (e : String)
    (hn : fc.name = some ("generateYouTubeThumbnail"))
    (he : thumbnailInvoke thumb scenes fc.args = Except.error e) :
    callEffects thumb scenes fc = []
      ∧ callSentence thumb scenes fc = thumbnailFailConfirm e := by
  unfold callEffects callSentence
  simp [hn, he]

/-- The batch confirmation text is the first nonempty call sentence. -/
theorem batchConfirm_eq_find (thumb : ThumbOracle) (scenes : List Scene)
    (init : String) (fcs : List FnCall) :
    batchConfirm thumb scenes init fcs =
      jsOr init
        (((fcs.map (callSentence thumb scenes)).find? (fun s => s != "")).getD "") := by
  induction fcs generalizing init with
  | nil => simp [batchConfirm, jsOr_empty_right]
  | cons fc rest ih =>
    have hstep : batchConfirm thumb scenes init (fc :: rest)
        = batchConfirm thumb scenes (jsOr init (callSentence thumb scenes fc)) rest := rfl
    rw [hstep, ih]
    by_cases hc : callSentence thumb scenes fc = ""
    · simp [hc, jsOr_empty_right, List.find?]
    · simp only [List.map_cons, List.find?]
      have : (callSentence thumb scenes fc != "") = true := by
        simpa using hc
      rw [this]
      simp [Option.getD, jsOr_of_ne _ _ hc]
      by_cases hi : init = ""
      · simp [hi, jsOr_empty_left, jsOr_of_ne _ _ hc]
      · simp [jsOr_of_ne _ _ hi]

/-!  ## Host handler lemmas  -/

/-- `modifyAt` preserves length. -/
theorem modifyAt_length (l : List Scene) (n : Nat) (f : Scene → Scene) :
    (modifyAt l n f).length = l.length := by
  induction l generalizing n with
  | nil => rfl
  | cons x xs ih =>
    cases n with
    | zero => rfl
    | succ m => simp [modifyAt, ih]

/-- `modifyAt` at the updated position. -/
theorem modifyAt_get?_self (l : List Scene) (n : Nat) (f : Scene → Scene) :
    (modifyAt l n f).get? n = (l.get? n).map f := by
  induction l generalizing n with
  | nil => rfl
  | cons x xs ih =>
    cases n with
    | zero => rfl
    | succ m => simpa [modifyAt] using ih m

/-- `modifyAt` away from the updated position. -/
theorem modifyAt_get?_ne (l : List Scene) (n m : Nat) (f : Scene → Scene)
    (h : m ≠ n) :
    (modifyAt l n f).get? m = l.get? m := by
  induction l generalizing n m with
  | nil => rfl
  | cons x xs ih =>
    cases n with
    | zero =>
      cases m with
      | zero => exact absurd rfl h
      | succ k => rfl
    | succ n' =>
      cases m with
      | zero => rfl
      | succ k =>
        have hk : k ≠ n' := by omega
        simpa [modifyAt] using ih n' k hk

/-- `flatApply` preserves length. -/
theorem flatApply_length (xs : List String) (prev : List Scene) (i : Nat) :
    (flatApply xs prev i).length = prev.length := by
  induction prev generalizing i with
  | nil => rfl
  | cons s rest ih => simp [flatApply, ih]

/-- Element view of `flatApply`. -/
theorem flatApply_get? (xs : List String) (prev : List Scene) (i j : Nat) :
    (flatApply xs prev i).get? j =
      (prev.get? j).map
        (fun s => { s with narrationTranslated := some (xs.getD (i + j) ("")) }) := by
  induction prev generalizing i j with
  | nil => rfl
  | cons s rest ih =>
    cases j with
    | zero => simp [flatApply]
    | succ k =>
      have h1 := ih (i + 1) k
      have h2 : i + 1 + k = i + (k + 1) := by omega
      rw [h2] at h1
      simpa [flatApply] using h1

/-- Element view of `resetTranslated`. -/
theorem resetTranslated_get? (prev : List Scene) (i : Nat) :
    (resetTranslated prev).get? i =
      (prev.get? i).map (fun s => { s with narrationTranslated := some "" }) := by
  simp [resetTranslated]

/-- `applySparseEntries` preserves length. -/
theorem applySparseEntries_length (entries : List SceneItem) (next : List Scene) :
    (applySparseEntries entries next).length = next.length := by
  induction entries generalizing next with
  | nil => rfl
  | cons e rest ih =>
    unfold applySparseEntries
    rw [ih]
    split
    · exact modifyAt_length _ _ _
    · rfl

/-- The last entry of the sparse list satisfying a predicate (later entries
of the loop overwrite earlier ones). -/
def lastMatch (p : SceneItem → Bool) : List SceneItem → Option SceneItem
  | [] => none
  | e :: rest =>
    match lastMatch p rest with
    | some r => some r
    | none => if p e then some e else none

/-- The defining equation of `lastMatch` on a cons cell. -/
theorem lastMatch_cons (p : SceneItem → Bool) (e : SceneItem)
    (rest : List SceneItem) :
    lastMatch p (e :: rest) =
      match lastMatch p rest with
      | some r => some r
      | none => if p e then some e else none := rfl

/-- Element view of the sparse update loop: position `i` ends up holding
the translation of the last entry naming scene `i + 1`, and is untouched
otherwise. -/
theorem applySparseEntries_get? (entries : List SceneItem) (next : List Scene)
    (i : Nat) :
    (applySparseEntries entries next).get? i =
      match lastMatch (fun e => e.sceneNumber.getD 0 == (i : Int) + 1) entries with
      | some e =>
        (next.get? i).map
          (fun s => { s with narrationTranslated := some (e.narration.getD ("")) })
      | none => next.get? i := by
  induction entries generalizing next with
  | nil => rfl
  | cons e rest ih =>
    unfold applySparseEntries
    rw [ih, lastMatch_cons]
    rcases hm : lastMatch (fun e => e.sceneNumber.getD 0 == (i : Int) + 1) rest with _ | r
    · simp only
      by_cases hp : e.sceneNumber.getD 0 = (i : Int) + 1
      · have hpb : (e.sceneNumber.getD 0 == (i : Int) + 1) = true := by
          simpa using hp
        rw [hpb]
        simp only [if_true]
        by_cases hlen : (i : Int) < (next.length : Int)
        · have hcond : 0 ≤ e.sceneNumber.getD 0 - 1
              ∧ e.sceneNumber.getD 0 - 1 < (next.length : Int) := by omega
          rw [if_pos hcond]
          have hidx : (e.sceneNumber.getD 0 - 1).toNat = i := by omega
          rw [hidx, modifyAt_get?_self]
        · have hcond : ¬ (0 ≤ e.sceneNumber.getD 0 - 1
              ∧ e.sceneNumber.getD 0 - 1 < (next.length : Int)) := by omega
          rw [if_neg hcond]
          have hnone : next.get? i = none := by
            rw [List.get?_eq_none]
            omega
          rw [hnone]
          rfl
      · have hpb : (e.sceneNumber.getD 0 == (i : Int) + 1) = false := by
          simpa using hp
        rw [hpb, if_neg Bool.false_ne_true]
        split
        · rename_i hcond
          have hne : i ≠ (e.sceneNumber.getD 0 - 1).toNat := by omega
          exact modifyAt_get?_ne _ _ _ _ hne
        · rfl
    · simp only
      split
      · rename_i hcond
        by_cases hi : (e.sceneNumber.getD 0 - 1).toNat = i
        · rw [hi, modifyAt_get?_self]
          cases hni : next.get? i with
          | none => rfl
          | some s => rfl
        · rw [modifyAt_get?_ne _ _ _ _ (fun hh => hi hh.symm)]
      · rfl

/-!  ## Claim theorems  -/

/-- An oracle whose external thumbnail call always throws `boom`. -/
def thumbFailOracle : ThumbOracle := fun _ _ _ => Except.error ("boom")

/-- A `generateMovieScript` call missing its required `scenes` argument. -/
def badScriptCall : FnCall := { name := some ("generateMovieScript") }

/-- A well-formed `generateYouTubeTitle` call. -/
def titleCall : FnCall :=
  { name := some ("generateYouTubeTitle")
    args := { title := some (JsonVal.str "T") } }

/-- A `generateYouTubeThumbnail` call with no arguments. -/
def thumbCall : FnCall := { name := some ("generateYouTubeThumbnail") }

/-- C1: within one dispatched batch, a call whose tag is unknown or whose
required-argument guard fails is skipped silently — it contributes no
effect and no confirmation text, and the remaining calls are dispatched
exactly as if it were absent; a thumbnail call whose handler throws is
caught locally — it contributes no effect, only offers its failure
sentence to the first-wins `confirmText` slot, and the rest of the batch
is still processed.  Dispatch is a total function of the batch, so no
exception escapes it. -/
theorem dispatch_skip_and_failure_isolation (thumb : ThumbOracle)
    (scenes : List Scene) (pre post : List FnCall) (fc : FnCall) :
    (skippedCall fc = true →
      dispatchCalls thumb scenes (pre ++ fc :: post)
        = dispatchCalls thumb scenes (pre ++ post))
  ∧ (∀ e, fc.name = some ("generateYouTubeThumbnail") →
      thumbnailInvoke thumb scenes fc.args = Except.error e →
      (dispatchCalls thumb scenes (pre ++ fc :: post)).effects
          = (dispatchCalls thumb scenes (pre ++ post)).effects
      ∧ dispatchCalls thumb scenes (pre ++ fc :: post)
          = dispatchFrom thumb scenes
              { effects := (dispatchCalls thumb scenes pre).effects
                confirmText :=
                  jsOr (dispatchCalls thumb scenes pre).confirmText
                    (thumbnailFailConfirm e) } post) := by
  have hsplit : ∀ l : List FnCall, dispatchCalls thumb scenes l
      = { effects := batchEffects thumb scenes l
          confirmText := batchConfirm thumb scenes ("") l } := by
    intro l
    rw [dispatchCalls, dispatchFrom_eq]
    simp
  constructor
  · intro hskip
    obtain ⟨he, hs⟩ := skippedCall_noop thumb scenes fc hskip
    rw [hsplit, hsplit]
    have hE : batchEffects thumb scenes (pre ++ fc :: post)
        = batchEffects thumb scenes (pre ++ post) := by
      simp [batchEffects, he]
    have h1 : pre ++ fc :: post = (pre ++ [fc]) ++ post := by simp
    have hC : batchConfirm thumb scenes ("") (pre ++ fc :: post)
        = batchConfirm thumb scenes ("") (pre ++ post) := by
      rw [h1, batchConfirm_append, batchConfirm_append]
      have h2 : batchConfirm thumb scenes
          (batchConfirm thumb scenes ("") pre) [fc]
          = batchConfirm thumb scenes ("") pre := by
        simp [batchConfirm, hs, jsOr_empty_right]
      rw [h2, ← batchConfirm_append]
    rw [hE, hC]
  · intro e hn hf
    obtain ⟨he, hs⟩ := thumbFail_call thumb scenes fc e hn hf
    have hmid : dispatchCalls thumb scenes (pre ++ fc :: post)
        = dispatchFrom thumb scenes
            (processCall thumb scenes (dispatchCalls thumb scenes pre) fc) post := by
      simp [dispatchCalls, dispatchFrom, List.foldl_append]
    constructor
    · rw [hsplit, hsplit]
      simp [batchEffects, he]
    · rw [hmid, processCall_eq, he, hs]
      simp

/-- Instance of the isolation theorem: the malformed `generateMovieScript`
call is dropped without disturbing its sibling, and the failing thumbnail
call only contributes its failure sentence. -/
theorem dispatch_skip_and_failure_isolation_witness :
    (dispatchCalls thumbFailOracle [] ([] ++ badScriptCall :: [titleCall])
        = dispatchCalls thumbFailOracle [] ([] ++ [titleCall]))
  ∧ ((dispatchCalls thumbFailOracle [] ([] ++ thumbCall :: [titleCall])).effects
        = (dispatchCalls thumbFailOracle [] ([] ++ [titleCall])).effects
     ∧ dispatchCalls thumbFailOracle [] ([] ++ thumbCall :: [titleCall])
        = dispatchFrom thumbFailOracle []
            { effects := (dispatchCalls thumbFailOracle [] []).effects
              confirmText :=
                jsOr (dispatchCalls thumbFailOracle [] []).confirmText
                  (thumbnailFailConfirm ("boom")) } [titleCall]) :=
  ⟨(dispatch_skip_and_failure_isolation thumbFailOracle [] [] [titleCall]
      badScriptCall).1 rfl,
   (dispatch_skip_and_failure_isolation thumbFailOracle [] [] [titleCall]
      thumbCall).2 ("boom") rfl rfl⟩

/-- C2: `translateNarrationsBatch` either succeeds with a list of exactly
the input's length — obtained positionally from the (wrapped) remote
array, so in the same order — or fails with an error; it never silently
truncates or pads. -/
theorem translateBatch_length_and_order (cfg : Bool) (narr : List String)
    (lang : String) (remote : RemoteText) (r : List String)
    (h : translateNarrationsBatch cfg narr lang remote = Except.ok r) :
    r.length = narr.length
  ∧ (∀ v, remote = RemoteText.parsed v → narr ≠ [] →
      r = (jsWrapArr v).map coerceElem) := by
  cases cfg with
  | false => simp [translateNarrationsBatch] at h
  | true =>
    by_cases hn : narr.length = 0
    · have hr : r = [] := by
        simp [translateNarrationsBatch, hn] at h
        exact h
      subst hr
      refine ⟨by simpa using hn.symm, ?_⟩
      intro v hv hne
      exact absurd (List.length_eq_zero.mp hn) hne
    · cases remote with
      | noText => simp [translateNarrationsBatch, hn] at h
      | unparseable => simp [translateNarrationsBatch, hn] at h
      | parsed v =>
        by_cases hl : (jsWrapArr v).length = narr.length
        · have hr : r = (jsWrapArr v).map coerceElem := by
            simp [translateNarrationsBatch, hn, hl] at h
            exact h.symm
          subst hr
          refine ⟨by simp [hl], ?_⟩
          intro v' hv' _
          injection hv' with hv2
          subst hv2
          rfl
        · simp [translateNarrationsBatch, hn, hl] at h

/-- Instance of the length-and-order contract at a one-element batch. -/
theorem translateBatch_length_and_order_witness :
    translateNarrationsBatch true ["a"] ("French")
        (RemoteText.parsed (JsonVal.arr [JsonVal.str "b"])) = Except.ok ["b"]
  ∧ (["b"] : List String).length = (["a"] : List String).length
  ∧ (["b"] : List String)
      = (jsWrapArr (JsonVal.arr [JsonVal.str "b"])).map coerceElem := by
  refine ⟨rfl, ?_, ?_⟩
  · exact (translateBatch_length_and_order true ["a"] ("French")
      (RemoteText.parsed (JsonVal.arr [JsonVal.str "b"])) ["b"] rfl).1
  · exact (translateBatch_length_and_order true ["a"] ("French")
      (RemoteText.parsed (JsonVal.arr [JsonVal.str "b"])) ["b"] rfl).2
      (JsonVal.arr [JsonVal.str "b"]) rfl (by decide)

/-- C8 counterexample: a remote response that is not a JSON array of
strings does not make the call fail — an array holding the number `1` is
coerced to the string `"1"`, and a bare number `7` is first wrapped into a
one-element array and then coerced — so the claim that the call fails on
any non-array-of-strings response is false on the code. -/
theorem translateBatch_coercion_counterexample :
    translateNarrationsBatch true ["a"] ("French")
        (RemoteText.parsed (JsonVal.arr [JsonVal.num 1])) = Except.ok ["1"]
  ∧ translateNarrationsBatch true ["a"] ("French")
        (RemoteText.parsed (JsonVal.num 7)) = Except.ok ["7"] := ⟨rfl, rfl⟩

/-- C8 amended: with a nonempty input, a missing response text fails with
`noResponse`, unparseable text fails with `invalidJson`, and a parsed
value is wrapped (`Array.isArray(parsed) ? parsed : [parsed]`); the call
fails with `lengthMismatch` exactly when the wrapped array's length
differs from the input's, and otherwise succeeds after coercing every
element to a string. -/
theorem translateBatch_failure_modes (narr : List String) (lang : String)
    (hne : narr ≠ []) :
    translateNarrationsBatch true narr lang RemoteText.noText
        = Except.error TranslationError.noResponse
  ∧ translateNarrationsBatch true narr lang RemoteText.unparseable
        = Except.error TranslationError.invalidJson
  ∧ (∀ v, translateNarrationsBatch true narr lang (RemoteText.parsed v)
        = if (jsWrapArr v).length ≠ narr.length then
            Except.error
              (TranslationError.lengthMismatch (jsWrapArr v).length narr.length)
          else Except.ok ((jsWrapArr v).map coerceElem)) := by
  have hn : ¬ narr.length = 0 := by
    simpa [List.length_eq_zero] using hne
  refine ⟨by simp [translateNarrationsBatch, hn], by simp [translateNarrationsBatch, hn], ?_⟩
  intro v
  simp [translateNarrationsBatch, hn]

/-- Instance of the failure-mode theorem at a one-element batch. -/
theorem translateBatch_failure_modes_witness :
    translateNarrationsBatch true ["x"] ("German") RemoteText.noText
        = Except.error TranslationError.noResponse
  ∧ translateNarrationsBatch true ["x"] ("German") RemoteText.unparseable
        = Except.error TranslationError.invalidJson
  ∧ translateNarrationsBatch true ["x"] ("German")
        (RemoteText.parsed (JsonVal.arr []))
        = Except.error (TranslationError.lengthMismatch 0 1) := by
  obtain ⟨h1, h2, h3⟩ := translateBatch_failure_modes ["x"] ("German") (by decide)
  exact ⟨h1, h2, by simpa using h3 (JsonVal.arr [])⟩

/-- A call with an unknown tag. -/
def unknownCall : FnCall := { name := some ("doSomethingElse") }

/-- C4 counterexample: with the batch `[thumbnail, title]` under a failing
thumbnail oracle, the only applied effect is the title effect, yet the
returned confirmation text is the thumbnail failure sentence — not the
first successfully-applied effect's canned sentence; and a batch holding
only an unknown call returns and displays the empty string even though
nonempty raw model text was present (no fall-through to the raw text). -/
theorem confirmText_first_success_counterexample :
    (dispatchCalls thumbFailOracle [] [thumbCall, titleCall]).effects
        = [Effect.title (JsonVal.str "T")]
  ∧ (dispatchCalls thumbFailOracle [] [thumbCall, titleCall]).confirmText
        = thumbnailFailConfirm ("boom")
  ∧ thumbnailFailConfirm ("boom") ≠ titleConfirm
  ∧ (sendAssistantMessagePost thumbFailOracle [] [unknownCall] ("Hello")
        ParseOutcome.noMatch).text = ""
  ∧ (sendAssistantMessagePost thumbFailOracle [] [unknownCall] ("Hello")
        ParseOutcome.noMatch).chunks = [""] := by
  refine ⟨rfl, rfl, ?_, rfl, rfl⟩
  decide

/-- C4 amended: the confirmation text of a batch is the first nonempty
sentence offered by its calls in order — success sentences, the translate
sentence (offered even when neither array shape is present, so no effect
applies), and thumbnail-failure sentences alike; later sentences never
overwrite it, all effects still apply, and when no call offers a sentence
it is the empty string; a turn with at least one structured call returns
and displays exactly that accumulated text, never the raw model text. -/
theorem confirmText_first_sentence (thumb : ThumbOracle) (scenes : List Scene)
    (fcs : List FnCall) :
    dispatchCalls thumb scenes fcs =
      { effects := batchEffects thumb scenes fcs
        confirmText :=
          ((fcs.map (callSentence thumb scenes)).find? (fun s => s != "")).getD "" }
  ∧ (∀ (text : String) (po : ParseOutcome), 0 < fcs.length →
      (sendAssistantMessagePost thumb scenes fcs text po).text
          = (dispatchCalls thumb scenes fcs).confirmText
      ∧ (sendAssistantMessagePost thumb scenes fcs text po).chunks
          = [(dispatchCalls thumb scenes fcs).confirmText]) := by
  constructor
  · rw [dispatchCalls, dispatchFrom_eq, batchConfirm_eq_find]
    simp [jsOr_empty_left]
  · intro text po hlen
    constructor <;> simp [sendAssistantMessagePost, hlen]

/-- Instance of the first-sentence characterization at a one-call batch. -/
theorem confirmText_first_sentence_witness :
    (sendAssistantMessagePost thumbFailOracle [] [titleCall] ("hi")
        ParseOutcome.noMatch).text
      = (dispatchCalls thumbFailOracle [] [titleCall]).confirmText
  ∧ (sendAssistantMessagePost thumbFailOracle [] [titleCall] ("hi")
        ParseOutcome.noMatch).chunks
      = [(dispatchCalls thumbFailOracle [] [titleCall]).confirmText] :=
  (confirmText_first_sentence thumbFailOracle [] [titleCall]).2 ("hi")
    ParseOutcome.noMatch (by decide)

/-- C6: the fallback extractor is consulted only when the turn produced no
structured calls (with calls present the parse outcome is irrelevant to
the turn's output); it returns `some` exactly when the text is non-blank,
the bracketed region parsed, and at least one recovered element is truthy
with a truthy `description` or `narration` — the returned array being
exactly those elements — and a successful extraction synthesizes a single
script effect with the canned confirmation. -/
theorem fallback_extractor_contract :
    (∀ (thumb : ThumbOracle) (scenes : List Scene) (fcs : List FnCall)
        (text : String) (po po' : ParseOutcome), fcs ≠ [] →
      sendAssistantMessagePost thumb scenes fcs text po
        = sendAssistantMessagePost thumb scenes fcs text po')
  ∧ (∀ (text : String) (po : ParseOutcome) (l : List JsonVal),
      tryParseScriptFromText text po = some l ↔
        (¬ jsTrim text = "" ∧ ∃ v, po = ParseOutcome.parsed v
          ∧ l = (jsWrapArr v).filter sceneMeaningful ∧ l ≠ []))
  ∧ (∀ (thumb : ThumbOracle) (scenes : List Scene) (text : String)
        (po : ParseOutcome) (l : List JsonVal),
      tryParseScriptFromText text po = some l →
      sendAssistantMessagePost thumb scenes [] text po
        = { effects := [Effect.scriptFallback l]
            chunks := [scriptAddedConfirm]
            text := scriptAddedShort
            functionCalled := true }) := by
  refine ⟨?_, ?_, ?_⟩
  · intro thumb scenes fcs text po po' hne
    have hlen : 0 < fcs.length := List.length_pos.mpr hne
    simp [sendAssistantMessagePost, hlen]
  · intro text po l
    unfold tryParseScriptFromText
    by_cases ht : jsTrim text = ""
    · simp [ht]
    · rw [if_neg ht]
      cases po with
      | noMatch => simp [ht]
      | parseError => simp [ht]
      | parsed v =>
        dsimp only
        by_cases hz : ((jsWrapArr v).filter sceneMeaningful).length = 0
        · rw [if_pos hz]
          constructor
          · intro h
            exact Option.noConfusion h
          · rintro ⟨-, v', hv', hl, hne⟩
            injection hv' with hv2
            subst hv2
            have hfil : (jsWrapArr v).filter sceneMeaningful = [] :=
              List.length_eq_zero.mp hz
            exact (hne (by rw [hl, hfil])).elim
        · rw [if_neg hz]
          constructor
          · intro h
            injection h with h2
            refine ⟨ht, v, rfl, h2.symm, ?_⟩
            intro hnil
            apply hz
            rw [h2, hnil]
            rfl
          · rintro ⟨-, v', hv', hl, -⟩
            injection hv' with hv2
            subst hv2
            rw [hl]
  · intro thumb scenes text po l h
    simp [sendAssistantMessagePost, h]

/-- A well-formed fallback element with truthy description and narration. -/
def fallbackItem : JsonVal :=
  JsonVal.obj [("description", JsonVal.str "d"), ("narration", JsonVal.str "n")]

/-- Instances of the fallback contract: two different parse outcomes give
the same turn output when a structured call is present, the `some`
characterization at a concrete parsed array, and the synthesized script
effect on the call-free turn. -/
theorem fallback_extractor_contract_witness :
    (sendAssistantMessagePost thumbFailOracle [] [titleCall] ("t")
        ParseOutcome.noMatch
      = sendAssistantMessagePost thumbFailOracle [] [titleCall] ("t")
        ParseOutcome.parseError)
  ∧ (tryParseScriptFromText ("Here you go: [x]")
        (ParseOutcome.parsed (JsonVal.arr [fallbackItem])) = some [fallbackItem]
      ↔ (¬ jsTrim ("Here you go: [x]") = ""
          ∧ ∃ v, ParseOutcome.parsed (JsonVal.arr [fallbackItem])
              = ParseOutcome.parsed v
            ∧ [fallbackItem] = (jsWrapArr v).filter sceneMeaningful
            ∧ ([fallbackItem] : List JsonVal) ≠ []))
  ∧ sendAssistantMessagePost thumbFailOracle [] [] ("Here you go: [x]")
        (ParseOutcome.parsed (JsonVal.arr [fallbackItem]))
      = { effects := [Effect.scriptFallback [fallbackItem]]
          chunks := [scriptAddedConfirm]
          text := scriptAddedShort
          functionCalled := true } :=
  ⟨(fallback_extractor_contract).1 thumbFailOracle [] [titleCall] ("t")
      ParseOutcome.noMatch ParseOutcome.parseError (by simp),
   (fallback_extractor_contract).2.1 ("Here you go: [x]")
      (ParseOutcome.parsed (JsonVal.arr [fallbackItem])) [fallbackItem],
   (fallback_extractor_contract).2.2 thumbFailOracle [] ("Here you go: [x]")
      (ParseOutcome.parsed (JsonVal.arr [fallbackItem])) [fallbackItem] rfl⟩

/-- C7: context rendering is a pure function — rendering the same list
twice yields identical output — the empty scene list renders to the empty
string, and a scene block carries the translated-narration line only when
`narrationTranslated` is present (and nonempty): when the field is absent
or empty the block is exactly the base block. -/
theorem buildScriptContext_deterministic :
    (∀ scenes : List Scene, buildScriptContext scenes = buildScriptContext scenes)
  ∧ buildScriptContext [] = ""
  ∧ (∀ s : Scene, s.narrationTranslated = none ∨ s.narrationTranslated = some ""
      → sceneContextBlock s = sceneBaseBlock s)
  ∧ (∀ (s : Scene) (t : String), s.narrationTranslated = some t → t ≠ "" →
      sceneContextBlock s
        = sceneBaseBlock s ++ "\n  Narration (translated): " ++ t) := by
  refine ⟨fun _ => rfl, rfl, ?_, ?_⟩
  · intro s hs
    rcases hs with h | h <;> simp [sceneContextBlock, jsTruthyStr, h]
  · intro s t ht hne
    simp [sceneContextBlock, jsTruthyStr, ht, hne]

/-- A scene whose `narrationTranslated` property is absent. -/
def sceneA : Scene :=
  { sceneNumber := 1, description := "d", narration := "n"
    narrationTranslated := none, imageBlob := none, audioBlob := none }

/-- The same scene with a present, nonempty translation. -/
def sceneB : Scene := { sceneA with narrationTranslated := some "t" }

/-- Instances of the context-builder contract. -/
theorem buildScriptContext_deterministic_witness :
    buildScriptContext [sceneA] = buildScriptContext [sceneA]
  ∧ sceneContextBlock sceneA = sceneBaseBlock sceneA
  ∧ sceneContextBlock sceneB
      = sceneBaseBlock sceneB ++ "\n  Narration (translated): " ++ "t" :=
  ⟨(buildScriptContext_deterministic).1 [sceneA],
   (buildScriptContext_deterministic).2.2.1 sceneA (Or.inl rfl),
   (buildScriptContext_deterministic).2.2.2 sceneB ("t") rfl (by decide)⟩

/-- A first scene carrying a (reset) empty translation. -/
def sceneOne : Scene :=
  { sceneNumber := 1, description := "d1", narration := "n1"
    narrationTranslated := some "", imageBlob := none, audioBlob := none }

/-- A second scene carrying a (reset) empty translation. -/
def sceneTwo : Scene :=
  { sceneNumber := 2, description := "d2", narration := "n2"
    narrationTranslated := some "", imageBlob := none, audioBlob := none }

/-- A flat TranslateNarrations argument with one string (for two scenes). -/
def mismatchArgs : ToolArgs :=
  { targetLanguage := some (JsonVal.str "French")
    translatedNarrations := some (TransNarr.arr ["bonjour"]) }

/-- C3 counterexample: applying a flat TranslateNarrations effect holding
one string to two scenes raises no error and does modify the scenes —
scene 1 receives the provided string and scene 2's translation is reset to
the empty string — so the claimed ProtocolError-with-unchanged-scenes
behavior is false on the code. -/
theorem translate_mismatch_counterexample :
    (handleChatTranslateNarrations mismatchArgs [sceneOne, sceneTwo]).1
        = [{ sceneOne with narrationTranslated := some "bonjour" },
           { sceneTwo with narrationTranslated := some "" }]
  ∧ (handleChatTranslateNarrations mismatchArgs [sceneOne, sceneTwo]).1
        ≠ [sceneOne, sceneTwo] := by
  refine ⟨rfl, ?_⟩
  decide

/-- C3 amended: the flat branch performs no length validation; each scene
at index `i` receives `translatedNarrations[i]` when present and the empty
string otherwise (`?? ''`), so on a longer scene list the surplus scenes
are reset rather than an error being raised, and the scene list is
modified, not left unchanged. -/
theorem translate_mismatch_behavior (args : ToolArgs) (xs : List String)
    (prev : List Scene)
    (h : args.translatedNarrations = some (TransNarr.arr xs)) (hne : xs ≠ []) :
    ∀ i, ((handleChatTranslateNarrations args prev).1.get? i)
      = (prev.get? i).map
          (fun s => { s with narrationTranslated := some (xs.getD i ("")) }) := by
  intro i
  have hflat : isNonemptyTN args.translatedNarrations = true := by
    simp [isNonemptyTN, h, List.length_eq_zero, hne]
  have hred : (handleChatTranslateNarrations args prev).1 = flatApply xs prev 0 := by
    unfold handleChatTranslateNarrations
    rw [if_pos hflat]
    simp [tnItems, h]
  rw [hred]
  simpa using flatApply_get? xs prev 0 i

/-- Instance of the flat mismatch behavior at the padded position. -/
theorem translate_mismatch_behavior_witness :
    ((handleChatTranslateNarrations mismatchArgs [sceneOne, sceneTwo]).1.get? 1)
      = ([sceneOne, sceneTwo].get? 1).map
          (fun s =>
            { s with
              narrationTranslated :=
                some ((["bonjour"] : List String).getD 1 ("")) }) :=
  translate_mismatch_behavior mismatchArgs ["bonjour"] [sceneOne, sceneTwo]
    rfl (by simp) 1

/-- The translation applied to scene `i` by a sparse invocation: the
narration of the last entry naming scene number `i + 1`, defaulting to the
empty string. -/
def sparseValueFor (entries : List SceneItem) (i : Nat) : String :=
  match lastMatch (fun e => e.sceneNumber.getD 0 == (i : Int) + 1) entries with
  | some e => e.narration.getD ""
  | none => ""

/-- C5: in the sparse form the handler first resets every scene's
translation to the empty string and then writes each named in-range
scene's text (later duplicates winning), so one invocation defines the
complete translated state of every scene: scene `i` ends up with the
narration of the last entry naming scene number `i + 1`, and with the
empty string when no entry names it — never a partial patch over a prior
pass. -/
theorem sparse_translate_total_replace (args : ToolArgs)
    (entries : List SceneItem) (prev : List Scene)
    (hflat : isNonemptyTN args.translatedNarrations = false)
    (h : args.scenes = some (ScenesVal.arr entries)) (hne : entries ≠ []) :
    ∀ i, ((handleChatTranslateNarrations args prev).1.get? i)
      = (prev.get? i).map
          (fun s => { s with narrationTranslated := some (sparseValueFor entries i) }) := by
  intro i
  have hsp : isNonemptySceneArr args.scenes = true := by
    simp [isNonemptySceneArr, h, List.length_eq_zero, hne]
  have hred : (handleChatTranslateNarrations args prev).1
      = applySparseEntries entries (resetTranslated prev) := by
    unfold handleChatTranslateNarrations
    rw [if_neg (by simp [hflat]), if_pos hsp]
    simp [sceneItems, h]
  rw [hred, applySparseEntries_get?]
  unfold sparseValueFor
  rcases hm : lastMatch (fun e => e.sceneNumber.getD 0 == (i : Int) + 1) entries
    with _ | e
  · rw [resetTranslated_get?]
  · rw [resetTranslated_get?]
    cases prev.get? i with
    | none => rfl
    | some s => rfl

/-- A sparse TranslateNarrations argument naming only scene 2. -/
def sparseArgs : ToolArgs :=
  { targetLanguage := some (JsonVal.str "French")
    scenes := some (ScenesVal.arr
      [{ sceneNumber := some 2, narration := some "deux" }]) }

/-- Instance of the total-replace behavior: scene 1, not named by the
sparse list, is explicitly reset to the empty translation. -/
theorem sparse_translate_total_replace_witness :
    ((handleChatTranslateNarrations sparseArgs [sceneOne, sceneTwo]).1.get? 0)
      = ([sceneOne, sceneTwo].get? 0).map
          (fun s =>
            { s with
              narrationTranslated :=
                some (sparseValueFor
                  [{ sceneNumber := some 2, narration := some "deux" }] 0) }) :=
  sparse_translate_total_replace sparseArgs
    [{ sceneNumber := some 2, narration := some "deux" }] [sceneOne, sceneTwo]
    rfl rfl (by simp) 0

/-- The fields of a scene other than `narrationTranslated`. -/
def frameOf (s : Scene) : Int × String × String × Option Nat × Option Nat :=
  (s.sceneNumber, s.description, s.narration, s.imageBlob, s.audioBlob)

/-- C9: in either argument shape (and in the no-op case), the chat
translation handler changes only `narrationTranslated`: the length of the
scene list and every scene's number, description, narration, image blob
and audio blob are unchanged. -/
theorem translate_narrations_frame (args : ToolArgs) (prev : List Scene) :
    ((handleChatTranslateNarrations args prev).1).length = prev.length
  ∧ ∀ i, (((handleChatTranslateNarrations args prev).1).get? i).map frameOf
        = (prev.get? i).map frameOf := by
  unfold handleChatTranslateNarrations
  split
  · refine ⟨by simp [flatApply_length], ?_⟩
    intro i
    show ((flatApply (tnItems args.translatedNarrations) prev 0).get? i).map frameOf
        = (prev.get? i).map frameOf
    rw [flatApply_get?]
    cases prev.get? i with
    | none => rfl
    | some s => rfl
  · split
    · refine ⟨by simp [applySparseEntries_length, resetTranslated], ?_⟩
      intro i
      show ((applySparseEntries (sceneItems args.scenes)
          (resetTranslated prev)).get? i).map frameOf
        = (prev.get? i).map frameOf
      rw [applySparseEntries_get?]
      rcases hm : lastMatch
          (fun e => e.sceneNumber.getD 0 == (i : Int) + 1)
          (sceneItems args.scenes) with _ | e
      all_goals rw [resetTranslated_get?]
      all_goals cases prev.get? i
      all_goals rfl
    · exact ⟨rfl, fun i => rfl⟩

/-- An item whose `narrationTranslated` property is absent. -/
def plainItem : SceneItem :=
  { sceneNumber := some 1, description := some "d", narration := some "n" }

/-- C10 counterexample: normalizing an item with an absent
`narrationTranslated` yields a scene whose `narrationTranslated` is the
present empty string (absence is not preserved), and context rendering
produces the identical block for an absent and for an empty translation —
so the operations neither preserve nor distinguish absence from the empty
string. -/
theorem narrationTranslated_absence_counterexample :
    (initialScene plainItem).narrationTranslated = some ""
  ∧ sceneContextBlock sceneA
      = sceneContextBlock { sceneA with narrationTranslated := some "" } :=
  ⟨rfl, rfl⟩

/-- C10 amended: scene normalization maps an absent `narrationTranslated`
to the present empty string (`item.narrationTranslated ?? ''`), and
context rendering treats an absent and an empty translation identically
(the translated line is omitted for both) — the code maintains no semantic
distinction between absence and the empty string. -/
theorem narrationTranslated_normalization (item : SceneItem) (s : Scene) :
    (initialScene item).narrationTranslated
        = some (item.narrationTranslated.getD "")
  ∧ sceneContextBlock { s with narrationTranslated := none }
      = sceneContextBlock { s with narrationTranslated := some "" } := by
  refine ⟨rfl, ?_⟩
  simp [sceneContextBlock, jsTruthyStr, sceneBaseBlock]
